import Mathlib

/-!
# TodoListFetch: a verification development

Shallow embedding of `src/js/components/TodoListFetch/TodoListFetch.jsx`.

* JavaScript values that can reach the component (parsed JSON, plus `undefined`)
  are the inductive type `JSValue`.
* React state is the record `State`; every `setX` call is a function on `World`,
  which also keeps the list of requests issued and the list of states produced.
* The remote service is an arbitrary function `Net` from the exchange history and
  the next request to the outcome of `fetch`.
-/

namespace TodoListFetch

/-! ## JavaScript values -/

/-- JavaScript values as they come out of `res.json()`, together with `undefined`.
Numbers are kept as integers; objects are property lists (own properties, first
match wins, as for an in-memory object whose keys are distinct). -/
inductive JSValue where
  | undefined : JSValue
  | null : JSValue
  | bool (b : Bool) : JSValue
  | num (n : Int) : JSValue
  | str (s : String) : JSValue
  | arr (items : List JSValue) : JSValue
  | obj (props : List (String × JSValue)) : JSValue

/-- Own-property lookup in a property list: the value, or `undefined`. -/
def lookupProp : List (String × JSValue) → String → JSValue
  | [], _ => JSValue.undefined
  | (k, v) :: rest, key => if k = key then v else lookupProp rest key

/-- The test `Array.isArray(v)`. -/
def isArray : JSValue → Bool
  | JSValue.arr _ => true
  | _ => false

/-- The test of `??`: is the value `null` or `undefined`? -/
def isNullish : JSValue → Bool
  | JSValue.undefined => true
  | JSValue.null => true
  | _ => false

/-- The operator `a ?? b`. -/
def nullish (a b : JSValue) : JSValue :=
  if isNullish a then b else a

/-- Optional access `v?.key` for the data keys the component reads (`todos`): `undefined` on a
nullish base, the own property on an object, `undefined` on a primitive or an
array (none of the keys read by the source is a builtin prototype property). -/
def optGet (v : JSValue) (key : String) : JSValue :=
  match v with
  | JSValue.obj props => lookupProp props key
  | _ => JSValue.undefined

/-- Plain access `v.key`: as `optGet`, except that reading a property of `null` or `undefined`
throws (`none`). -/
def getProp (v : JSValue) (key : String) : Option JSValue :=
  if isNullish v then none else some (optGet v key)

/-- Source: `const toArray = (data) => (Array.isArray(data) ? data : data?.todos ?? []);` -/
def toArray (data : JSValue) : JSValue :=
  if isArray data then data else nullish (optGet data "todos") (JSValue.arr [])

/-! ## Strings -/

/-- The characters removed by `String.prototype.trim`: ECMAScript `WhiteSpace`
(TAB, VT, FF, ZWNBSP and the space separators) and `LineTerminator`
(LF, CR, LS, PS). -/
def isJsWhitespace (c : Char) : Bool :=
  let n := c.toNat
  n == 0x09 || n == 0x0A || n == 0x0B || n == 0x0C || n == 0x0D || n == 0x20 ||
  n == 0xA0 || n == 0x1680 || (0x2000 ≤ n && n ≤ 0x200A) || n == 0x2028 ||
  n == 0x2029 || n == 0x202F || n == 0x205F || n == 0x3000 || n == 0xFEFF

/-- The call `s.trim()`: the string without its leading and trailing whitespace. -/
def jsTrim (s : String) : String :=
  String.mk (((s.data.dropWhile isJsWhitespace).reverse.dropWhile isJsWhitespace).reverse)

/-- Truthiness of the `err` state (`null` or a message), as tested by `if (err)`. -/
def truthy : Option String → Bool
  | none => false
  | some m => m != ""

/-! ## Component state -/

/-- The four `useState` cells of the component. `todos` holds whatever `toArray`
returned; `err` is `null` (`none`) or a message. -/
structure State where
  todos : JSValue
  label : String
  loading : Bool
  err : Option String

/-- State on mount: `useState([])`, `useState("")`, `useState(true)`, `useState(null)`. -/
def initialState : State :=
  { todos := JSValue.arr [], label := "", loading := true, err := none }

/-- Source: `const username = "jorgevila";` -/
def username : String := "jorgevila"

/-! ## The remote service -/

/-- HTTP methods used by the component (`fetch` without `method` is a GET). -/
inductive Method where
  | GET : Method
  | POST : Method
  | DELETE : Method

/-- The three URL templates of the source, each under `API_BASE_URL`. -/
inductive Url where
  /-- Template `API_BASE_URL/users/username`. -/
  | users (name : String) : Url
  /-- Template `API_BASE_URL/todos/username`. -/
  | todos (name : String) : Url
  /-- Template `API_BASE_URL/todos/id`, with the value `id` interpolated. -/
  | todoItem (id : JSValue) : Url

/-- One call of `fetch`: method, URL, headers, and the value whose
`JSON.stringify` is the body (if any). -/
structure Request where
  method : Method
  url : Url
  headers : List (String × String)
  body : Option JSValue

/-- A resolved `fetch`: the status, and what `await res.json()` gives (the parsed
body, or the message of the error it throws). -/
structure Response where
  status : Nat
  json : Except String JSValue

/-- The flag `res.ok`: the status is in the range 200-299. -/
def Response.ok (res : Response) : Bool :=
  200 ≤ res.status && res.status ≤ 299

/-- What `await fetch(...)` does: throw an error with a message (network failure)
or give a response. -/
inductive FetchOutcome where
  | rejected (message : String) : FetchOutcome
  | resolved (res : Response) : FetchOutcome

/-- A request together with its outcome. -/
abbrev Exchange := Request × FetchOutcome

/-- The remote service and the network: any function from the exchanges so far and
the next request to the outcome of that request. -/
abbrev Net := List Exchange → Request → FetchOutcome

/-- The request of `fetch(API_BASE_URL/users/username)`. -/
def getUserReq : Request :=
  { method := Method.GET, url := Url.users username, headers := [], body := none }

/-- The request of `fetch(API_BASE_URL/users/username, method POST)`. -/
def createUserReq : Request :=
  { method := Method.POST, url := Url.users username, headers := [], body := none }

/-- The POST of `addTodo`, with body `JSON.stringify({ label: newLabel, done: false })`. -/
def createTodoReq (newLabel : String) : Request :=
  { method := Method.POST, url := Url.todos username,
    headers := [("Content-Type", "application/json")],
    body := some (JSValue.obj [("label", JSValue.str newLabel), ("done", JSValue.bool false)]) }

/-- The request of `fetch(API_BASE_URL/todos/id, method DELETE)`. -/
def deleteTodoReq (id : JSValue) : Request :=
  { method := Method.DELETE, url := Url.todoItem id, headers := [], body := none }

/-! ## Execution -/

/-- The component while a workflow runs: the current state, the exchanges made so
far (oldest first) and the state after each setter call so far (oldest first). -/
structure World where
  state : State
  log : List Exchange
  history : List State

/-- A world at rest in state `s`: nothing requested, no setter called. -/
def World.start (s : State) : World :=
  { state := s, log := [], history := [] }

/-- Store a new state and record it. -/
def World.put (w : World) (s : State) : World :=
  { w with state := s, history := w.history ++ [s] }

/-- The setter `setTodos(v)`. -/
def setTodos (v : JSValue) (w : World) : World := w.put { w.state with todos := v }

/-- The setter `setLabel(v)`. -/
def setLabel (v : String) (w : World) : World := w.put { w.state with label := v }

/-- The setter `setLoading(v)`. -/
def setLoading (v : Bool) (w : World) : World := w.put { w.state with loading := v }

/-- The setter `setErr(v)`. -/
def setErr (v : Option String) (w : World) : World := w.put { w.state with err := v }

/-- The call `await fetch(req)`: ask the service, record the exchange. -/
def fetch (net : Net) (req : Request) (w : World) : FetchOutcome × World :=
  (net w.log req, { w with log := w.log ++ [(req, net w.log req)] })

/-- The message of `new Error(`<text> (${status})`)`. -/
def statusMessage (text : String) (status : Nat) : String :=
  text ++ " (" ++ toString status ++ ")"

/-- Lines 53-57 of the bootstrap: the final check of the GET, `res.json()` and
`setTodos(toArray(data))`. `Except.error m` is a thrown error with message `m`. -/
def bootstrapFinish (res : Response) (w : World) : Except String Unit × World :=
  if !res.ok then (Except.error (statusMessage "Error al cargar tareas" res.status), w)
  else
    match res.json with
    | Except.error m => (Except.error m, w)
    | Except.ok data => (Except.ok (), setTodos (toArray data) w)

/-- The `try` block of the bootstrap effect (lines 39-57). -/
def bootstrapTry (net : Net) (w : World) : Except String Unit × World :=
  let w := setLoading true w
  let w := setErr none w
  match fetch net getUserReq w with
  | (FetchOutcome.rejected m, w) => (Except.error m, w)
  | (FetchOutcome.resolved res, w) =>
    if res.status = 404 then
      match fetch net createUserReq w with
      | (FetchOutcome.rejected m, w) => (Except.error m, w)
      | (FetchOutcome.resolved createRes, w) =>
        if !createRes.ok then
          (Except.error (statusMessage "No se pudo crear el usuario" createRes.status), w)
        else
          match fetch net getUserReq w with
          | (FetchOutcome.rejected m, w) => (Except.error m, w)
          | (FetchOutcome.resolved res, w) => bootstrapFinish res w
    else bootstrapFinish res w

/-- The `catch` and `finally` blocks shared by the three workflows:
`setErr(e.message)` if the `try` block threw, then `setLoading(false)`. -/
def catchFinally (r : Except String Unit × World) : World :=
  match r with
  | (Except.error m, w) => setLoading false (setErr (some m) w)
  | (Except.ok _, w) => setLoading false w

/-- The bootstrap effect (lines 36-64). -/
def bootstrap (net : Net) (w : World) : World :=
  catchFinally (bootstrapTry net w)

/-- Lines 91-94 and 120-123: reload the list with `GET /users/{username}` and
`setTodos(toArray(data))`. -/
def reloadTodos (net : Net) (w : World) : Except String Unit × World :=
  match fetch net getUserReq w with
  | (FetchOutcome.rejected m, w) => (Except.error m, w)
  | (FetchOutcome.resolved reload, w) =>
    if !reload.ok then
      (Except.error (statusMessage "No se pudieron recargar las tareas" reload.status), w)
    else
      match reload.json with
      | Except.error m => (Except.error m, w)
      | Except.ok data => (Except.ok (), setTodos (toArray data) w)

/-- The `try` block of `addTodo` (lines 79-97). -/
def addTodoTry (net : Net) (newLabel : String) (w : World) : Except String Unit × World :=
  let w := setLoading true w
  let w := setErr none w
  match fetch net (createTodoReq newLabel) w with
  | (FetchOutcome.rejected m, w) => (Except.error m, w)
  | (FetchOutcome.resolved res, w) =>
    if !res.ok then (Except.error (statusMessage "No se pudo añadir la tarea" res.status), w)
    else
      match reloadTodos net w with
      | (Except.error m, w) => (Except.error m, w)
      | (Except.ok _, w) => (Except.ok (), setLabel "" w)

/-- The handler `addTodo` (lines 71-103); `e.preventDefault()` does not touch the state. -/
def addTodo (net : Net) (w : World) : World :=
  let newLabel := jsTrim w.state.label
  if newLabel = "" then w
  else catchFinally (addTodoTry net newLabel w)

/-- The `try` block of `deleteTodo` (lines 112-123). -/
def deleteTodoTry (net : Net) (id : JSValue) (w : World) : Except String Unit × World :=
  let w := setLoading true w
  let w := setErr none w
  match fetch net (deleteTodoReq id) w with
  | (FetchOutcome.rejected m, w) => (Except.error m, w)
  | (FetchOutcome.resolved res, w) =>
    if !res.ok then (Except.error (statusMessage "No se pudo borrar la tarea" res.status), w)
    else reloadTodos net w

/-- The handler `deleteTodo` (lines 110-129). -/
def deleteTodo (net : Net) (id : JSValue) (w : World) : World :=
  catchFinally (deleteTodoTry net id w)

/-! ## Rendering -/

/-- Source: `const id = t.id ?? t._id ?? t.todo_id;` (`none`: reading a property of a
nullish `t` throws). -/
def resolveId (t : JSValue) : Option JSValue := do
  let a ← getProp t "id"
  let ab ← if isNullish a then getProp t "_id" else pure a
  if isNullish ab then getProp t "todo_id" else pure ab

/-- One `<li>` of the list: its `key`, the text of its `<span>`, and the argument
its delete button passes to `deleteTodo`. -/
structure Item where
  key : JSValue
  text : JSValue
  deleteArg : JSValue

/-- The body of `todos.map((t) => ...)` (lines 158-177). -/
def renderItem (t : JSValue) : Option Item := do
  let id ← resolveId t
  let label ← getProp t "label"
  pure { key := nullish id label, text := label, deleteArg := id }

/-- What the component returns. -/
inductive View where
  /-- View `<div className="error">Error: {err}</div>`. -/
  | error (message : String) : View
  /-- View `<div className="loading">Cargando…</div>`. -/
  | loading : View
  /-- The normal view: the input's value, whether the submit button is disabled,
  whether the "No hay tareas aún" line is shown, and the items. -/
  | main (inputValue : String) (submitDisabled : Bool) (emptyNotice : Bool)
      (items : List Item) : View

/-- The normal view of lines 136-180; `none` when rendering throws (`todos.map` on a
value that is not an array, or a property read on a nullish task). -/
def renderMain (s : State) : Option View :=
  match s.todos with
  | JSValue.arr items =>
    (items.mapM renderItem).map
      (View.main s.label (jsTrim s.label == "") (items.length == 0))
  | _ => none

/-- Lines 133-180: the loading guard, then the normal view. -/
def renderLoaded (s : State) : Option View :=
  if s.loading then some View.loading else renderMain s

/-- The render function (lines 131-180): the error guard comes first. -/
def render (s : State) : Option View :=
  match s.err with
  | some m => if truthy (some m) then some (View.error m) else renderLoaded s
  | none => renderLoaded s

/-! ## Vocabulary of the properties -/

/-- The requests of a run, oldest first. -/
def World.requests (w : World) : List Request := w.log.map Prod.fst

/-- The response status of an exchange, if the request was answered. -/
def Exchange.status (e : Exchange) : Option Nat :=
  match e.2 with
  | FetchOutcome.rejected _ => none
  | FetchOutcome.resolved res => some res.status

/-- The exchange was answered with a status outside 200-299. -/
def Exchange.badStatus (e : Exchange) : Bool :=
  match e.2 with
  | FetchOutcome.rejected _ => false
  | FetchOutcome.resolved res => !res.ok

/-- Is the request a GET? -/
def Request.isGet (r : Request) : Bool :=
  match r.method with
  | Method.GET => true
  | _ => false

/-- The exchange failed: the network call threw, or the status is outside 200-299,
or it is a GET whose body could not be parsed. -/
def Exchange.failed (e : Exchange) : Bool :=
  match e.2 with
  | FetchOutcome.rejected _ => true
  | FetchOutcome.resolved res =>
    !res.ok || (e.1.isGet && match res.json with
      | Except.error _ => true
      | Except.ok _ => false)

/-- The elements of a list value (none for a value that is not an array). -/
def elements : JSValue → List JSValue
  | JSValue.arr items => items
  | _ => []

/-- Is the request `GET /users/{username}`? -/
def Request.isGetUser (r : Request) : Bool :=
  match r.method, r.url with
  | Method.GET, Url.users n => n == username
  | _, _ => false

/-- Is the request `POST /users/{username}`, the creation of the user? -/
def Request.isCreateUser (r : Request) : Bool :=
  match r.method, r.url with
  | Method.POST, Url.users n => n == username
  | _, _ => false

/-- The request was answered, with a status in 200-299. -/
def FetchOutcome.succeeded : FetchOutcome → Bool
  | FetchOutcome.rejected _ => false
  | FetchOutcome.resolved res => res.ok

/-- In a bootstrap run: some exchange was answered with a status outside 200-299,
a 404 answer to the initial GET apart. -/
def bootstrapBadStatus : List Exchange → Bool
  | [] => false
  | e :: rest => (e.badStatus && e.status != some 404) || rest.any Exchange.badStatus

/-- In a bootstrap run: some exchange failed, a 404 answer to the initial GET apart. -/
def bootstrapFailed : List Exchange → Bool
  | [] => false
  | e :: rest => (e.failed && e.status != some 404) || rest.any Exchange.failed

/-- The list value `todos` has an entry whose resolved identifier is `i`. -/
def containsId (todos : JSValue) (i : JSValue) : Prop :=
  ∃ t ∈ elements todos, resolveId t = some i

/-- A service that answers the n-th request of a run with the n-th outcome of a
script, and lets the network fail once the script is used up. -/
def scriptedNet (script : List FetchOutcome) : Net :=
  fun log _ => script.getD log.length (FetchOutcome.rejected "Failed to fetch")

/-- A response with the given status and parsed body. -/
def respond (status : Nat) (body : JSValue) : FetchOutcome :=
  FetchOutcome.resolved { status := status, json := Except.ok body }

/-- The task `{id: <n>, label: <text>, is_done: false}` as the service sends it. -/
def task (n : Int) (text : String) : JSValue :=
  JSValue.obj [("label", JSValue.str text), ("is_done", JSValue.bool false),
    ("id", JSValue.num n)]

/-- A state at rest showing the normal view, with the given draft text. -/
def idleState (draft : String) : State :=
  { todos := JSValue.arr [], label := draft, loading := false, err := none }

/-- How a workflow started in state `s` ends when a request of it was answered with
a failure status: err holds a non-empty message, todos is as in `s` and no setter
call of the run changed it, and the exchange with the failure status is the last
one of the run. -/
def EndsInStatusError (s : State) (w : World) : Prop :=
  (∃ m, w.state.err = some m ∧ m ≠ "") ∧
  w.state.todos = s.todos ∧
  (∀ st ∈ w.history, st.todos = s.todos) ∧
  ∃ e, w.log.getLast? = some e ∧ e.badStatus = true

/-- What the user can do on the rendered view: type in the input (`onChange`), submit
the form (`onSubmit={addTodo}`), or click the delete button of an item
(`onClick={() => deleteTodo(id)}`). -/
inductive Event where
  | change (value : String) : Event
  | submit : Event
  | delete (id : JSValue) : Event

/-- The events a view offers: the error view and the loading view are a single
`<div>` without controls; the normal view has the input, the form and one delete
button for each item. (The form counts as offered even while its button is disabled.) -/
def View.Offers : View → Event → Prop
  | View.main _ _ _ _, Event.change _ => True
  | View.main _ _ _ _, Event.submit => True
  | View.main _ _ _ items, Event.delete id => ∃ it ∈ items, it.deleteArg = id
  | _, _ => False

/-- The handler attached to each event: `setLabel(e.target.value)`, `addTodo`,
`deleteTodo(id)`. -/
def handle (net : Net) : Event → World → World
  | Event.change value, w => setLabel value w
  | Event.submit, w => addTodo net w
  | Event.delete id, w => deleteTodo net id w

/-- The states in which the component can come to rest: after the bootstrap run on
mount, and after the handler of any event offered by the view of such a state. -/
inductive Reachable : State → Prop where
  | mount (net : Net) : Reachable (bootstrap net (World.start initialState)).state
  | event (net : Net) (s : State) (v : View) (ev : Event) :
      Reachable s → render s = some v → v.Offers ev →
      Reachable (handle net ev (World.start s)).state

/-- The steps of a trace: each state paired with the next one. -/
def steps : List State → List (State × State)
  | a :: b :: rest => (a, b) :: steps (b :: rest)
  | _ => []

/-- The reachable state transitions: a setter call changes the state from `a` to
`b` during the bootstrap run on mount, or during the handler of an event offered by
the view of a reachable state. -/
inductive Transition : State → State → Prop where
  | mount (net : Net) (a b : State) :
      (a, b) ∈ steps (initialState :: (bootstrap net (World.start initialState)).history) →
      Transition a b
  | event (net : Net) (s : State) (v : View) (ev : Event) (a b : State) :
      Reachable s → render s = some v → v.Offers ev →
      (a, b) ∈ steps (s :: (handle net ev (World.start s)).history) →
      Transition a b

/-- No step of the trace takes err from non-empty to empty. -/
def errKept : List State → Bool
  | a :: b :: rest => (!truthy a.err || truthy b.err) && errKept (b :: rest)
  | _ => true

/-- Every state of the trace but the last has loading on. -/
def busyUntilLast : List State → Bool
  | a :: b :: rest => a.loading && busyUntilLast (b :: rest)
  | _ => true

/-- The state on mount once the bootstrap has stored the message of a GET answered
500, with the given loading flag. -/
def mountFailedState (loading : Bool) : State :=
  { initialState with err := some "Error al cargar tareas (500)", loading := loading }

/-- The state while `addTodo` with the draft "Buy milk" has stored the message of a
POST answered 500, with the given loading flag. -/
def addFailedState (loading : Bool) : State :=
  { idleState "Buy milk" with err := some "No se pudo añadir la tarea (500)",
                              loading := loading }

/-! ## Normalisation -/

/-- C1: for every sequence of tasks `xs`, `toArray` returns `xs` itself, unchanged
and in the same order, both on the bare sequence and on any object whose `todos`
property is that sequence. -/
theorem toArray_sequence_or_wrapped (xs : List JSValue) :
    toArray (JSValue.arr xs) = JSValue.arr xs ∧
    ∀ props : List (String × JSValue),
      lookupProp props "todos" = JSValue.arr xs →
      toArray (JSValue.obj props) = JSValue.arr xs := by
  refine ⟨rfl, ?_⟩
  intro props h
  simp [toArray, isArray, optGet, h, nullish, isNullish]

/-- Witness for C1 on the list `[{label: "a"}]`, bare and wrapped in
`{name: "u", todos: [...]}`. -/
theorem toArray_sequence_or_wrapped_witness :
    toArray (JSValue.arr [JSValue.obj [("label", JSValue.str "a")]])
        = JSValue.arr [JSValue.obj [("label", JSValue.str "a")]] ∧
    toArray (JSValue.obj [("name", JSValue.str "u"),
        ("todos", JSValue.arr [JSValue.obj [("label", JSValue.str "a")]])])
        = JSValue.arr [JSValue.obj [("label", JSValue.str "a")]] :=
  ⟨(toArray_sequence_or_wrapped [JSValue.obj [("label", JSValue.str "a")]]).1,
   (toArray_sequence_or_wrapped [JSValue.obj [("label", JSValue.str "a")]]).2
      [("name", JSValue.str "u"),
        ("todos", JSValue.arr [JSValue.obj [("label", JSValue.str "a")]])]
      (by simp [lookupProp])⟩

/-- C2: on the body `{todos: 5}`, which is neither a sequence nor an object holding
a sequence under `todos`, `toArray` returns the number `5`: not the empty sequence
and not a sequence at all; a state holding it as todos cannot be rendered
(`todos.map` throws). -/
theorem toArray_todos_scalar_not_sequence :
    toArray (JSValue.obj [("todos", JSValue.num 5)]) = JSValue.num 5 ∧
    isArray (toArray (JSValue.obj [("todos", JSValue.num 5)])) = false ∧
    render { idleState "" with todos := toArray (JSValue.obj [("todos", JSValue.num 5)]) }
      = none := by
  simp [toArray, isArray, optGet, lookupProp, nullish, isNullish, render, renderLoaded,
    renderMain, idleState]

/-! ## Setters and the network: projections -/

@[simp]
theorem start_state (s : State) : (World.start s).state = s := rfl
@[simp]
theorem start_log (s : State) : (World.start s).log = [] := rfl
@[simp]
theorem start_history (s : State) : (World.start s).history = [] := rfl

/-- On a blank label `trim` gives the empty string. -/
theorem jsTrim_blank (s : String) (h : ∀ c ∈ s.data, isJsWhitespace c = true) :
    jsTrim s = "" := by
  have h1 : s.data.dropWhile isJsWhitespace = [] := by
    rw [List.dropWhile_eq_nil_iff]
    exact h
  simp [jsTrim, h1]

/-! ## Adding a task -/

/-- C5: when the draft label is empty or made of whitespace only, `addTodo` issues no
request and changes nothing: draft text, todos, loading and err are as before, and
no setter is called. -/
theorem addTodo_blank_noop (net : Net) (w : World)
    (h : ∀ c ∈ w.state.label.data, isJsWhitespace c = true) :
    addTodo net w = w ∧ (addTodo net w).log = w.log ∧
    (addTodo net w).state.label = w.state.label := by
  have ht := jsTrim_blank w.state.label h
  simp [addTodo, ht]

/-- Witness for C5: the draft `"  \t"`, on a network that is down. -/
theorem addTodo_blank_noop_witness :
    (∀ c ∈ ("  \t" : String).data, isJsWhitespace c = true) ∧
    addTodo (fun _ _ => FetchOutcome.rejected "down")
      (World.start { initialState with label := "  \t", loading := false })
      = World.start { initialState with label := "  \t", loading := false } :=
  ⟨by decide,
   (addTodo_blank_noop (fun _ _ => FetchOutcome.rejected "down")
      (World.start { initialState with label := "  \t", loading := false })
      (by decide)).1⟩

/-- C6: when the trimmed draft is non-empty and both the POST and the reload GET
succeed, `addTodo` sends `POST /todos/{username}` with body
`{label: <trimmed label>, done: false}`, then `GET /users/{username}`, and ends with
the draft empty, err empty, loading off and todos equal to `toArray` of the GET body. -/
theorem addTodo_success (net : Net) (s : State) (r1 r2 : Response) (data : JSValue)
    (hl : jsTrim s.label ≠ "")
    (h1 : net [] (createTodoReq (jsTrim s.label)) = FetchOutcome.resolved r1)
    (hok1 : r1.ok = true)
    (h2 : net [(createTodoReq (jsTrim s.label), FetchOutcome.resolved r1)] getUserReq
      = FetchOutcome.resolved r2)
    (hok2 : r2.ok = true) (hj : r2.json = Except.ok data) :
    (addTodo net (World.start s)).requests =
      [{ method := Method.POST, url := Url.todos username,
         headers := [("Content-Type", "application/json")],
         body := some (JSValue.obj [("label", JSValue.str (jsTrim s.label)),
                                    ("done", JSValue.bool false)]) },
       { method := Method.GET, url := Url.users username, headers := [], body := none }] ∧
    (addTodo net (World.start s)).state.label = "" ∧
    (addTodo net (World.start s)).state.err = none ∧
    (addTodo net (World.start s)).state.loading = false ∧
    (addTodo net (World.start s)).state.todos = toArray data := by
  simp [addTodo, hl, addTodoTry, fetch, setLoading, setErr, setTodos, setLabel, World.put,
    h1, hok1, reloadTodos, h2, hok2, hj, catchFinally, World.requests]
  simp [createTodoReq, getUserReq]

/-- C7: whenever a run of `addTodo` fails (the POST or the reload GET throws or is
answered with a status outside 200-299, or the reloaded body cannot be parsed), the
draft text after the run is the draft text before it and err holds a message. -/
theorem addTodo_failure_keeps_draft (net : Net) (s : State)
    (h : ∃ e ∈ (addTodo net (World.start s)).log, e.failed = true) :
    (addTodo net (World.start s)).state.label = s.label ∧
    ∃ m, (addTodo net (World.start s)).state.err = some m := by
  by_cases hl : jsTrim s.label = ""
  · simp [addTodo, hl] at h
  · cases h1 : net [] (createTodoReq (jsTrim s.label)) with
    | rejected m =>
      simp [addTodo, hl, addTodoTry, fetch, setLoading, setErr, World.put, h1, catchFinally]
    | resolved r1 =>
      by_cases hok1 : r1.ok = true
      · cases h2 : net [(createTodoReq (jsTrim s.label), FetchOutcome.resolved r1)]
            getUserReq with
        | rejected m =>
          simp [addTodo, hl, addTodoTry, fetch, setLoading, setErr, World.put, h1, hok1,
            reloadTodos, h2, catchFinally]
        | resolved r2 =>
          by_cases hok2 : r2.ok = true
          · cases hj : r2.json with
            | error m =>
              simp [addTodo, hl, addTodoTry, fetch, setLoading, setErr, World.put, h1, hok1,
                reloadTodos, h2, hok2, hj, catchFinally]
            | ok data =>
              exfalso
              simp [addTodo, hl, addTodoTry, fetch, setLoading, setErr, setTodos, setLabel,
                World.put, h1, hok1, reloadTodos, h2, hok2, hj, catchFinally,
                Exchange.failed] at h
              simp [createTodoReq, Request.isGet] at h
          · simp [addTodo, hl, addTodoTry, fetch, setLoading, setErr, World.put, h1, hok1,
              reloadTodos, h2, hok2, catchFinally]
      · simp [addTodo, hl, addTodoTry, fetch, setLoading, setErr, World.put, h1, hok1,
          catchFinally]

/-- Witness for C6: the draft `" Buy milk "`, a POST answered 201 and a reload
answered 200 with `{todos: [{id: 1, label: "Buy milk"}]}`. -/
theorem addTodo_success_witness :
    (addTodo (scriptedNet [respond 201 (task 1 "Buy milk"),
        respond 200 (JSValue.obj [("todos", JSValue.arr [task 1 "Buy milk"])])])
      (World.start (idleState " Buy milk "))).state.label = "" ∧
    (addTodo (scriptedNet [respond 201 (task 1 "Buy milk"),
        respond 200 (JSValue.obj [("todos", JSValue.arr [task 1 "Buy milk"])])])
      (World.start (idleState " Buy milk "))).state.todos
      = toArray (JSValue.obj [("todos", JSValue.arr [task 1 "Buy milk"])]) :=
  have h := addTodo_success
    (scriptedNet [respond 201 (task 1 "Buy milk"),
        respond 200 (JSValue.obj [("todos", JSValue.arr [task 1 "Buy milk"])])])
    (idleState " Buy milk ")
    { status := 201, json := Except.ok (task 1 "Buy milk") }
    { status := 200,
      json := Except.ok (JSValue.obj [("todos", JSValue.arr [task 1 "Buy milk"])]) }
    (JSValue.obj [("todos", JSValue.arr [task 1 "Buy milk"])])
    (by decide) rfl (by decide) rfl (by decide) rfl
  ⟨h.2.1, h.2.2.2.2⟩

/-- Witness for C7: the draft `"Buy milk"` and a POST answered 500. -/
theorem addTodo_failure_keeps_draft_witness :
    (addTodo (scriptedNet [respond 500 JSValue.null])
      (World.start (idleState "Buy milk"))).state.label = "Buy milk" ∧
    ∃ m, (addTodo (scriptedNet [respond 500 JSValue.null])
      (World.start (idleState "Buy milk"))).state.err = some m :=
  addTodo_failure_keeps_draft (scriptedNet [respond 500 JSValue.null]) (idleState "Buy milk")
    ⟨(createTodoReq "Buy milk", respond 500 JSValue.null), by
      simp [addTodo, addTodoTry, fetch, setLoading, setErr, World.put, catchFinally,
        scriptedNet, respond, Response.ok, idleState, show jsTrim "Buy milk" = "Buy milk" by decide],
      by simp [Exchange.failed, respond, Response.ok]⟩

/-! ## Bootstrap -/

/-- Every status message is a non-empty string. -/
theorem statusMessage_ne_empty (text : String) (status : Nat) :
    statusMessage text status ≠ "" := by
  intro h
  have hlen := congrArg String.length h
  simp [statusMessage, String.length_append] at hlen
  exact absurd hlen.2 (by decide)

/-- C3, as stated, fails: with the initial GET answered 404 and the creation POST
answered 500, the bootstrap issues the initial GET and the POST and then stops in
error; no retry GET is issued. -/
theorem bootstrap_failed_creation_no_retry :
    scriptedNet [respond 404 JSValue.null, respond 500 JSValue.null] [] getUserReq
      = respond 404 JSValue.null ∧
    (bootstrap (scriptedNet [respond 404 JSValue.null, respond 500 JSValue.null])
      (World.start initialState)).requests = [getUserReq, createUserReq] ∧
    ((bootstrap (scriptedNet [respond 404 JSValue.null, respond 500 JSValue.null])
      (World.start initialState)).requests.tail.countP Request.isGetUser) = 0 ∧
    (bootstrap (scriptedNet [respond 404 JSValue.null, respond 500 JSValue.null])
      (World.start initialState)).state.err = some "No se pudo crear el usuario (500)" := by
  have hm : statusMessage "No se pudo crear el usuario" 500
      = "No se pudo crear el usuario (500)" := by decide
  refine ⟨rfl, ?_, ?_, ?_⟩ <;>
  simp [bootstrap, bootstrapTry, fetch, setLoading, setErr, World.put, catchFinally,
    scriptedNet, respond, Response.ok, World.requests, getUserReq, createUserReq,
    Request.isGetUser, hm]

/-- C3, amended: when the initial GET is answered 404, the bootstrap issues exactly
one creation POST; if the creation succeeds it then issues exactly one retry GET,
whatever the retry's answer, and nothing else; if the creation fails (status outside
200-299 or network failure) it issues nothing more and ends with err set. -/
theorem bootstrap_after_404 (net : Net) (s : State) (r0 : Response)
    (h0 : net [] getUserReq = FetchOutcome.resolved r0) (h404 : r0.status = 404) :
    (bootstrap net (World.start s)).requests.countP Request.isCreateUser = 1 ∧
    ((net [(getUserReq, FetchOutcome.resolved r0)] createUserReq).succeeded = true →
      (bootstrap net (World.start s)).requests = [getUserReq, createUserReq, getUserReq] ∧
      (bootstrap net (World.start s)).requests.tail.countP Request.isGetUser = 1) ∧
    ((net [(getUserReq, FetchOutcome.resolved r0)] createUserReq).succeeded = false →
      (bootstrap net (World.start s)).requests = [getUserReq, createUserReq] ∧
      ∃ m, (bootstrap net (World.start s)).state.err = some m) := by
  have hg : Request.isGetUser getUserReq = true := by decide
  have hc : Request.isCreateUser createUserReq = true := by decide
  have hgc : Request.isCreateUser getUserReq = false := by decide
  have hcg : Request.isGetUser createUserReq = false := by decide
  cases h1 : net [(getUserReq, FetchOutcome.resolved r0)] createUserReq with
  | rejected m =>
    simp [bootstrap, bootstrapTry, fetch, setLoading, setErr, World.put, catchFinally,
      h0, h404, h1, World.requests, FetchOutcome.succeeded, hg, hc, hgc, hcg]
  | resolved r1 =>
    by_cases hok1 : r1.ok = true
    · cases h2 : net [(getUserReq, FetchOutcome.resolved r0),
          (createUserReq, FetchOutcome.resolved r1)] getUserReq with
      | rejected m =>
        simp [bootstrap, bootstrapTry, fetch, setLoading, setErr, World.put, catchFinally,
          h0, h404, h1, hok1, h2, World.requests, FetchOutcome.succeeded, hg, hc, hgc, hcg]
      | resolved r2 =>
        by_cases hok2 : r2.ok = true
        · cases hj : r2.json with
          | error m =>
            simp [bootstrap, bootstrapTry, bootstrapFinish, fetch, setLoading, setErr,
              World.put, catchFinally, h0, h404, h1, hok1, h2, hok2, hj, World.requests,
              FetchOutcome.succeeded, hg, hc, hgc, hcg]
          | ok data =>
            simp [bootstrap, bootstrapTry, bootstrapFinish, fetch, setLoading, setErr,
              setTodos, World.put, catchFinally, h0, h404, h1, hok1, h2, hok2, hj,
              World.requests, FetchOutcome.succeeded, hg, hc, hgc, hcg]
        · simp [bootstrap, bootstrapTry, bootstrapFinish, fetch, setLoading, setErr,
            World.put, catchFinally, h0, h404, h1, hok1, h2, hok2, World.requests,
            FetchOutcome.succeeded, hg, hc, hgc, hcg]
    · simp [bootstrap, bootstrapTry, fetch, setLoading, setErr, World.put, catchFinally,
        h0, h404, h1, hok1, World.requests, FetchOutcome.succeeded, hg, hc, hgc, hcg]

/-- Witness for C3: initial GET answered 404, creation answered 201, retry answered
200 with an empty list. -/
theorem bootstrap_after_404_witness :
    (bootstrap (scriptedNet [respond 404 JSValue.null, respond 201 JSValue.null,
        respond 200 (JSValue.arr [])]) (World.start initialState)).requests
      = [getUserReq, createUserReq, getUserReq] :=
  ((bootstrap_after_404
    (scriptedNet [respond 404 JSValue.null, respond 201 JSValue.null,
        respond 200 (JSValue.arr [])])
    initialState { status := 404, json := Except.ok JSValue.null } rfl rfl).2.1
    (by decide)).1

/-! ## Failure statuses -/

/-- Bootstrap part of C4. -/
theorem bootstrap_bad_status (net : Net) (s : State)
    (h : bootstrapBadStatus (bootstrap net (World.start s)).log = true) :
    EndsInStatusError s (bootstrap net (World.start s)) := by
  have hne := statusMessage_ne_empty
  cases h0 : net [] getUserReq with
  | rejected m =>
    simp [bootstrap, bootstrapTry, fetch, setLoading, setErr, World.put, catchFinally,
      h0, bootstrapBadStatus, Exchange.badStatus] at h
  | resolved r0 =>
    by_cases h404 : r0.status = 404
    · cases h1 : net [(getUserReq, FetchOutcome.resolved r0)] createUserReq with
      | rejected m =>
        simp [bootstrap, bootstrapTry, fetch, setLoading, setErr, World.put, catchFinally,
          h0, h404, h1, bootstrapBadStatus, Exchange.badStatus, Exchange.status] at h
      | resolved r1 =>
        by_cases hok1 : r1.ok = true
        · cases h2 : net [(getUserReq, FetchOutcome.resolved r0),
              (createUserReq, FetchOutcome.resolved r1)] getUserReq with
          | rejected m =>
            simp [bootstrap, bootstrapTry, fetch, setLoading, setErr, World.put,
              catchFinally, h0, h404, h1, hok1, h2, bootstrapBadStatus,
              Exchange.badStatus, Exchange.status] at h
          | resolved r2 =>
            by_cases hok2 : r2.ok = true
            · cases hj : r2.json with
              | error m =>
                simp [bootstrap, bootstrapTry, bootstrapFinish, fetch, setLoading, setErr,
                  World.put, catchFinally, h0, h404, h1, hok1, h2, hok2, hj,
                  bootstrapBadStatus, Exchange.badStatus, Exchange.status] at h
              | ok data =>
                simp [bootstrap, bootstrapTry, bootstrapFinish, fetch, setLoading, setErr,
                  setTodos, World.put, catchFinally, h0, h404, h1, hok1, h2, hok2, hj,
                  bootstrapBadStatus, Exchange.badStatus, Exchange.status] at h
            · simp [EndsInStatusError, bootstrap, bootstrapTry, bootstrapFinish, fetch,
                setLoading, setErr, World.put, catchFinally, h0, h404, h1, hok1, h2, hok2,
                Exchange.badStatus, hne]
        · simp [EndsInStatusError, bootstrap, bootstrapTry, fetch, setLoading, setErr,
            World.put, catchFinally, h0, h404, h1, hok1, Exchange.badStatus, hne]
    · by_cases hok0 : r0.ok = true
      · cases hj : r0.json with
        | error m =>
          simp [bootstrap, bootstrapTry, bootstrapFinish, fetch, setLoading, setErr,
            World.put, catchFinally, h0, h404, hok0, hj, bootstrapBadStatus,
            Exchange.badStatus] at h
        | ok data =>
          simp [bootstrap, bootstrapTry, bootstrapFinish, fetch, setLoading, setErr,
            setTodos, World.put, catchFinally, h0, h404, hok0, hj, bootstrapBadStatus,
            Exchange.badStatus] at h
      · simp [EndsInStatusError, bootstrap, bootstrapTry, bootstrapFinish, fetch,
          setLoading, setErr, World.put, catchFinally, h0, h404, hok0,
          Exchange.badStatus, hne]

/-- The reload shared by `addTodo` and `deleteTodo`, case by case: it throws without
touching the state, or it stores `toArray` of the parsed body. -/
theorem reloadTodos_cases (net : Net) (w : World) :
    (∃ m, net w.log getUserReq = FetchOutcome.rejected m ∧
      reloadTodos net w
        = (Except.error m, { w with log := w.log ++ [(getUserReq, FetchOutcome.rejected m)] })) ∨
    (∃ r, net w.log getUserReq = FetchOutcome.resolved r ∧ r.ok = false ∧
      reloadTodos net w
        = (Except.error (statusMessage "No se pudieron recargar las tareas" r.status),
           { w with log := w.log ++ [(getUserReq, FetchOutcome.resolved r)] })) ∨
    (∃ r m, net w.log getUserReq = FetchOutcome.resolved r ∧ r.ok = true ∧
      r.json = Except.error m ∧
      reloadTodos net w
        = (Except.error m, { w with log := w.log ++ [(getUserReq, FetchOutcome.resolved r)] })) ∨
    (∃ r data, net w.log getUserReq = FetchOutcome.resolved r ∧ r.ok = true ∧
      r.json = Except.ok data ∧
      reloadTodos net w
        = (Except.ok (),
           setTodos (toArray data)
             { w with log := w.log ++ [(getUserReq, FetchOutcome.resolved r)] })) := by
  cases h : net w.log getUserReq with
  | rejected m => simp [reloadTodos, fetch, h]
  | resolved r =>
    by_cases hok : r.ok = true
    · cases hj : r.json with
      | error m => simp [reloadTodos, fetch, h, hok, hj]
      | ok data => simp [reloadTodos, fetch, h, hok, hj]
    · simp [reloadTodos, fetch, h, hok]

/-- The `addTodo` part of C4. -/
theorem addTodo_bad_status (net : Net) (s : State)
    (h : (addTodo net (World.start s)).log.any Exchange.badStatus = true) :
    EndsInStatusError s (addTodo net (World.start s)) := by
  have hne := statusMessage_ne_empty
  by_cases hl : jsTrim s.label = ""
  · simp [addTodo, hl] at h
  · cases h1 : net [] (createTodoReq (jsTrim s.label)) with
    | rejected m =>
      simp [addTodo, hl, addTodoTry, fetch, setLoading, setErr, World.put, h1, catchFinally,
        Exchange.badStatus] at h
    | resolved r1 =>
      by_cases hok1 : r1.ok = true
      · rcases reloadTodos_cases net
          { state := { s with loading := true, err := none },
            log := [(createTodoReq (jsTrim s.label), FetchOutcome.resolved r1)],
            history := [{ s with loading := true }, { s with loading := true, err := none }] }
          with ⟨m, h2, hr⟩ | ⟨r2, h2, hok2, hr⟩ | ⟨r2, m, h2, hok2, hj, hr⟩ |
            ⟨r2, data, h2, hok2, hj, hr⟩
        · simp [addTodo, hl, addTodoTry, fetch, setLoading, setErr, World.put, h1, hok1, hr,
            catchFinally, Exchange.badStatus] at h
        · simp [EndsInStatusError, addTodo, hl, addTodoTry, fetch, setLoading, setErr,
            World.put, h1, hok1, hr, catchFinally, Exchange.badStatus, hok2, hne]
        · simp [addTodo, hl, addTodoTry, fetch, setLoading, setErr, World.put, h1, hok1, hr,
            catchFinally, Exchange.badStatus, hok2] at h
        · simp [addTodo, hl, addTodoTry, fetch, setLoading, setErr, setTodos, setLabel,
            World.put, h1, hok1, hr, catchFinally, Exchange.badStatus, hok2] at h
      · simp [EndsInStatusError, addTodo, hl, addTodoTry, fetch, setLoading, setErr,
          World.put, h1, hok1, catchFinally, Exchange.badStatus, hne]

/-- The `deleteTodo` part of C4. -/
theorem deleteTodo_bad_status (net : Net) (id : JSValue) (s : State)
    (h : (deleteTodo net id (World.start s)).log.any Exchange.badStatus = true) :
    EndsInStatusError s (deleteTodo net id (World.start s)) := by
  have hne := statusMessage_ne_empty
  cases h1 : net [] (deleteTodoReq id) with
  | rejected m =>
    simp [deleteTodo, deleteTodoTry, fetch, setLoading, setErr, World.put, h1, catchFinally,
      Exchange.badStatus] at h
  | resolved r1 =>
    by_cases hok1 : r1.ok = true
    · rcases reloadTodos_cases net
        { state := { s with loading := true, err := none },
          log := [(deleteTodoReq id, FetchOutcome.resolved r1)],
          history := [{ s with loading := true }, { s with loading := true, err := none }] }
        with ⟨m, h2, hr⟩ | ⟨r2, h2, hok2, hr⟩ | ⟨r2, m, h2, hok2, hj, hr⟩ |
          ⟨r2, data, h2, hok2, hj, hr⟩
      · simp [deleteTodo, deleteTodoTry, fetch, setLoading, setErr, World.put, h1, hok1, hr,
          catchFinally, Exchange.badStatus] at h
      · simp [EndsInStatusError, deleteTodo, deleteTodoTry, fetch, setLoading, setErr,
          World.put, h1, hok1, hr, catchFinally, Exchange.badStatus, hok2, hne]
      · simp [deleteTodo, deleteTodoTry, fetch, setLoading, setErr, World.put, h1, hok1, hr,
          catchFinally, Exchange.badStatus, hok2] at h
      · simp [deleteTodo, deleteTodoTry, fetch, setLoading, setErr, setTodos,
          World.put, h1, hok1, hr, catchFinally, Exchange.badStatus, hok2] at h
    · simp [EndsInStatusError, deleteTodo, deleteTodoTry, fetch, setLoading, setErr,
        World.put, h1, hok1, catchFinally, Exchange.badStatus, hne]

/-- C4: in each workflow (bootstrap, `addTodo`, `deleteTodo`), if some request is
answered with a status outside 200-299 (a 404 on the bootstrap's initial GET apart),
the workflow ends with err set to a non-empty message and todos as it was before the
workflow; no setter call of the run changes todos, and no request follows the failed
one. (With a blank draft `addTodo` issues no request, so the condition cannot hold.) -/
theorem bad_status_sets_err_keeps_todos (net : Net) (s : State) :
    (bootstrapBadStatus (bootstrap net (World.start s)).log = true →
      EndsInStatusError s (bootstrap net (World.start s))) ∧
    ((addTodo net (World.start s)).log.any Exchange.badStatus = true →
      EndsInStatusError s (addTodo net (World.start s))) ∧
    (∀ id : JSValue, (deleteTodo net id (World.start s)).log.any Exchange.badStatus = true →
      EndsInStatusError s (deleteTodo net id (World.start s))) :=
  ⟨bootstrap_bad_status net s, addTodo_bad_status net s,
   fun id => deleteTodo_bad_status net id s⟩

/-- Witness for C4: a bootstrap whose retry GET is answered 503 after a 404 and a
successful creation, an `addTodo` whose reload is answered 500, and a `deleteTodo`
answered 404, each started with one task in the list. -/
theorem bad_status_sets_err_keeps_todos_witness :
    EndsInStatusError { idleState "Buy milk" with todos := JSValue.arr [task 7 "old"] }
      (bootstrap (scriptedNet [respond 404 JSValue.null, respond 201 JSValue.null,
          respond 503 JSValue.null])
        (World.start { idleState "Buy milk" with todos := JSValue.arr [task 7 "old"] })) ∧
    EndsInStatusError { idleState "Buy milk" with todos := JSValue.arr [task 7 "old"] }
      (addTodo (scriptedNet [respond 201 JSValue.null, respond 500 JSValue.null])
        (World.start { idleState "Buy milk" with todos := JSValue.arr [task 7 "old"] })) ∧
    EndsInStatusError { idleState "Buy milk" with todos := JSValue.arr [task 7 "old"] }
      (deleteTodo (scriptedNet [respond 404 JSValue.null]) (JSValue.num 7)
        (World.start { idleState "Buy milk" with todos := JSValue.arr [task 7 "old"] })) :=
  ⟨(bad_status_sets_err_keeps_todos
      (scriptedNet [respond 404 JSValue.null, respond 201 JSValue.null,
          respond 503 JSValue.null])
      { idleState "Buy milk" with todos := JSValue.arr [task 7 "old"] }).1
      (by simp [bootstrap, bootstrapTry, bootstrapFinish, fetch, setLoading, setErr,
        World.put, catchFinally, scriptedNet, respond, Response.ok, bootstrapBadStatus,
        Exchange.badStatus]),
   (bad_status_sets_err_keeps_todos
      (scriptedNet [respond 201 JSValue.null, respond 500 JSValue.null])
      { idleState "Buy milk" with todos := JSValue.arr [task 7 "old"] }).2.1
      (by simp [addTodo, addTodoTry, reloadTodos, fetch, setLoading, setErr,
        World.put, catchFinally, scriptedNet, respond, Response.ok, idleState,
        Exchange.badStatus, show jsTrim "Buy milk" = "Buy milk" by decide]),
   (bad_status_sets_err_keeps_todos (scriptedNet [respond 404 JSValue.null])
      { idleState "Buy milk" with todos := JSValue.arr [task 7 "old"] }).2.2
      (JSValue.num 7)
      (by simp [deleteTodo, deleteTodoTry, fetch, setLoading, setErr,
        World.put, catchFinally, scriptedNet, respond, Response.ok,
        Exchange.badStatus])⟩

/-! ## Deleting a task -/

/-- C8, as stated, fails: `deleteTodo(42)` completes successfully (DELETE answered 204,
reload answered 200) and the reloaded list, which the component stores as it is,
still has the task with identifier 42. -/
theorem deleteTodo_keeps_what_server_returns :
    (deleteTodo (scriptedNet [respond 204 JSValue.null,
        respond 200 (JSValue.arr [task 42 "Buy milk"])]) (JSValue.num 42)
      (World.start (idleState ""))).state.err = none ∧
    (deleteTodo (scriptedNet [respond 204 JSValue.null,
        respond 200 (JSValue.arr [task 42 "Buy milk"])]) (JSValue.num 42)
      (World.start (idleState ""))).log.any Exchange.failed = false ∧
    containsId (deleteTodo (scriptedNet [respond 204 JSValue.null,
        respond 200 (JSValue.arr [task 42 "Buy milk"])]) (JSValue.num 42)
      (World.start (idleState ""))).state.todos (JSValue.num 42) := by
  refine ⟨?_, ?_, task 42 "Buy milk", ?_, ?_⟩
  · simp [deleteTodo, deleteTodoTry, reloadTodos, fetch, setLoading, setErr, setTodos,
      World.put, catchFinally, scriptedNet, respond, Response.ok, idleState]
  · simp [deleteTodo, deleteTodoTry, reloadTodos, fetch, setLoading, setErr, setTodos,
      World.put, catchFinally, scriptedNet, respond, Response.ok, idleState,
      Exchange.failed, getUserReq, deleteTodoReq, Request.isGet]
  · simp [deleteTodo, deleteTodoTry, reloadTodos, fetch, setLoading, setErr, setTodos,
      World.put, catchFinally, scriptedNet, respond, Response.ok, idleState, toArray,
      isArray, elements]
  · simp [resolveId, task, getProp, isNullish, optGet, lookupProp]

/-- C8, amended: when the DELETE and the reload GET both succeed, `deleteTodo(i)` sends
`DELETE /todos/{i}` and `GET /users/{username}` and ends with err empty and todos
equal to `toArray` of the GET body; so todos has no entry whose resolved identifier
is `i` exactly when the list sent by the service has none. -/
theorem deleteTodo_success (net : Net) (s : State) (i : JSValue) (r1 r2 : Response)
    (data : JSValue)
    (h1 : net [] (deleteTodoReq i) = FetchOutcome.resolved r1) (hok1 : r1.ok = true)
    (h2 : net [(deleteTodoReq i, FetchOutcome.resolved r1)] getUserReq
      = FetchOutcome.resolved r2)
    (hok2 : r2.ok = true) (hj : r2.json = Except.ok data) :
    (deleteTodo net i (World.start s)).requests =
      [{ method := Method.DELETE, url := Url.todoItem i, headers := [], body := none },
       { method := Method.GET, url := Url.users username, headers := [], body := none }] ∧
    (deleteTodo net i (World.start s)).state.err = none ∧
    (deleteTodo net i (World.start s)).state.todos = toArray data ∧
    (¬ containsId (deleteTodo net i (World.start s)).state.todos i ↔
      ¬ containsId (toArray data) i) := by
  have ht : (deleteTodo net i (World.start s)).state.todos = toArray data := by
    simp [deleteTodo, deleteTodoTry, reloadTodos, fetch, setLoading, setErr, setTodos,
      World.put, catchFinally, h1, hok1, h2, hok2, hj]
  refine ⟨?_, ?_, ht, by rw [ht]⟩
  · simp [deleteTodo, deleteTodoTry, reloadTodos, fetch, setLoading, setErr, setTodos,
      World.put, catchFinally, h1, hok1, h2, hok2, hj, World.requests]
    simp [deleteTodoReq, getUserReq]
  · simp [deleteTodo, deleteTodoTry, reloadTodos, fetch, setLoading, setErr, setTodos,
      World.put, catchFinally, h1, hok1, h2, hok2, hj]

/-- Witness for C8: `deleteTodo(42)` with the service answering 204 and then the
list `[{id: 7, label: "old"}]`. -/
theorem deleteTodo_success_witness :
    (deleteTodo (scriptedNet [respond 204 JSValue.null,
        respond 200 (JSValue.arr [task 7 "old"])]) (JSValue.num 42)
      (World.start (idleState ""))).state.todos = toArray (JSValue.arr [task 7 "old"]) :=
  (deleteTodo_success
    (scriptedNet [respond 204 JSValue.null, respond 200 (JSValue.arr [task 7 "old"])])
    (idleState "") (JSValue.num 42)
    { status := 204, json := Except.ok JSValue.null }
    { status := 200, json := Except.ok (JSValue.arr [task 7 "old"]) }
    (JSValue.arr [task 7 "old"]) rfl (by decide) rfl (by decide) rfl).2.2.1

/-! ## Identifiers and rendering -/

/-- C9: for a task `t`, the resolved identifier is the first of `t.id`, `t._id`,
`t.todo_id` that is neither null nor undefined (the last one if none is), so `0` and
the empty string are chosen when present; the item's key is the resolved identifier,
and `t.label` exactly when all three are absent; the delete button passes the
resolved identifier to `deleteTodo`. -/
theorem resolveId_precedence (t : JSValue) (ht : isNullish t = false) :
    resolveId t = some
      (if isNullish (optGet t "id") = false then optGet t "id"
       else if isNullish (optGet t "_id") = false then optGet t "_id"
       else optGet t "todo_id") ∧
    (∀ id, resolveId t = some id →
      renderItem t = some
        { key := if (isNullish (optGet t "id") && isNullish (optGet t "_id") &&
                    isNullish (optGet t "todo_id")) = true
                 then optGet t "label" else id,
          text := optGet t "label",
          deleteArg := id }) ∧
    (∀ v, v = JSValue.num 0 ∨ v = JSValue.str "" →
      (optGet t "id" = v → resolveId t = some v) ∧
      (isNullish (optGet t "id") = true → optGet t "_id" = v → resolveId t = some v) ∧
      (isNullish (optGet t "id") = true → isNullish (optGet t "_id") = true →
        optGet t "todo_id" = v → resolveId t = some v)) := by
  have hres : resolveId t = some
      (if isNullish (optGet t "id") = false then optGet t "id"
       else if isNullish (optGet t "_id") = false then optGet t "_id"
       else optGet t "todo_id") := by
    cases ha : isNullish (optGet t "id") <;> cases hb : isNullish (optGet t "_id") <;>
      simp [resolveId, getProp, ht, ha, hb]
  refine ⟨hres, ?_, ?_⟩
  · intro id hid
    rw [hres] at hid
    cases ha : isNullish (optGet t "id") <;> cases hb : isNullish (optGet t "_id") <;>
      cases hc : isNullish (optGet t "todo_id") <;>
      simp [ha, hb] at hid <;> subst hid <;>
      simp [renderItem, hres, getProp, ht, ha, hb, hc, nullish]
  · intro v hv
    have hvn : isNullish v = false := by
      rcases hv with rfl | rfl <;> rfl
    refine ⟨?_, ?_, ?_⟩
    · intro h
      simp [hres, h, hvn]
    · intro ha h
      simp [hres, ha, h, hvn]
    · intro ha hb h
      simp [hres, ha, hb, h]

/-- Witness for C9: the task `{_id: 0, todo_id: 9, label: "a"}` resolves to `0`. -/
theorem resolveId_precedence_witness :
    resolveId (JSValue.obj [("_id", JSValue.num 0), ("todo_id", JSValue.num 9),
        ("label", JSValue.str "a")])
      = some (if isNullish (optGet (JSValue.obj [("_id", JSValue.num 0),
            ("todo_id", JSValue.num 9), ("label", JSValue.str "a")]) "id") = false
          then optGet (JSValue.obj [("_id", JSValue.num 0),
            ("todo_id", JSValue.num 9), ("label", JSValue.str "a")]) "id"
          else if isNullish (optGet (JSValue.obj [("_id", JSValue.num 0),
            ("todo_id", JSValue.num 9), ("label", JSValue.str "a")]) "_id") = false
          then optGet (JSValue.obj [("_id", JSValue.num 0),
            ("todo_id", JSValue.num 9), ("label", JSValue.str "a")]) "_id"
          else optGet (JSValue.obj [("_id", JSValue.num 0),
            ("todo_id", JSValue.num 9), ("label", JSValue.str "a")]) "todo_id") ∧
    resolveId (JSValue.obj [("_id", JSValue.num 0), ("todo_id", JSValue.num 9),
        ("label", JSValue.str "a")]) = some (JSValue.num 0) :=
  ⟨(resolveId_precedence (JSValue.obj [("_id", JSValue.num 0), ("todo_id", JSValue.num 9),
      ("label", JSValue.str "a")]) rfl).1,
   ((resolveId_precedence (JSValue.obj [("_id", JSValue.num 0), ("todo_id", JSValue.num 9),
      ("label", JSValue.str "a")]) rfl).2.2 (JSValue.num 0) (Or.inl rfl)).2.1
      (by simp [optGet, lookupProp, isNullish]) (by simp [optGet, lookupProp])⟩

/-! ## The error state -/

/-- A non-empty err gives the error view, whatever loading and todos are. -/
theorem render_of_truthy (s : State) (h : truthy s.err = true) :
    ∃ m, s.err = some m ∧ render s = some (View.error m) := by
  cases he : s.err with
  | none => simp [he, truthy] at h
  | some m =>
    rw [he] at h
    exact ⟨m, rfl, by simp [render, he, h]⟩

/-- A view that offers an event is the normal view: err is empty and loading is off. -/
theorem offers_idle (s : State) (v : View) (ev : Event)
    (hr : render s = some v) (ho : v.Offers ev) :
    truthy s.err = false ∧ s.loading = false := by
  cases ht : truthy s.err with
  | true =>
    obtain ⟨m, _, hm⟩ := render_of_truthy s ht
    rw [hm] at hr
    cases hr
    cases ev <;> simp [View.Offers] at ho
  | false =>
    refine ⟨rfl, ?_⟩
    cases hl : s.loading with
    | false => rfl
    | true =>
      have hv : render s = some View.loading := by
        cases he : s.err with
        | none => simp [render, renderLoaded, he, hl]
        | some m =>
          rw [he] at ht
          simp [render, renderLoaded, he, hl, ht]
      rw [hv] at hr
      cases hr
      cases ev <;> simp [View.Offers] at ho

/-- A trace that keeps err keeps it at each of its steps. -/
theorem errKept_steps (l : List State) (h : errKept l = true) (a b : State)
    (hab : (a, b) ∈ steps l) : truthy a.err = true → truthy b.err = true := by
  induction l with
  | nil => simp [steps] at hab
  | cons x rest ih =>
    cases rest with
    | nil => simp [steps] at hab
    | cons y rest2 =>
      simp only [errKept, Bool.and_eq_true, Bool.or_eq_true, Bool.not_eq_true'] at h
      simp only [steps, List.mem_cons, Prod.mk.injEq] at hab
      rcases hab with ⟨rfl, rfl⟩ | hab
      · intro ha
        rcases h.1 with h1 | h1
        · rw [h1] at ha
          cases ha
        · exact h1
      · exact ih h.2 hab

/-- The value `null` is not a non-empty err. -/
theorem truthy_none : truthy none = false := rfl

/-- The bootstrap, started with err empty, never takes err from non-empty to empty,
and has loading on in every state but its last. -/
theorem bootstrap_trace (net : Net) (s : State) (hs : truthy s.err = false) :
    errKept (s :: (bootstrap net (World.start s)).history) = true ∧
    busyUntilLast (bootstrap net (World.start s)).history = true := by
  cases h0 : net [] getUserReq with
  | rejected m =>
    simp [bootstrap, bootstrapTry, fetch, setLoading, setErr, World.put, catchFinally,
      h0, errKept, busyUntilLast, hs, truthy_none]
  | resolved r0 =>
    by_cases h404 : r0.status = 404
    · cases h1 : net [(getUserReq, FetchOutcome.resolved r0)] createUserReq with
      | rejected m =>
        simp [bootstrap, bootstrapTry, fetch, setLoading, setErr, World.put, catchFinally,
          h0, h404, h1, errKept, busyUntilLast, hs, truthy_none]
      | resolved r1 =>
        by_cases hok1 : r1.ok = true
        · cases h2 : net [(getUserReq, FetchOutcome.resolved r0),
              (createUserReq, FetchOutcome.resolved r1)] getUserReq with
          | rejected m =>
            simp [bootstrap, bootstrapTry, fetch, setLoading, setErr, World.put,
              catchFinally, h0, h404, h1, hok1, h2, errKept, busyUntilLast, hs, truthy_none]
          | resolved r2 =>
            by_cases hok2 : r2.ok = true
            · cases hj : r2.json with
              | error m =>
                simp [bootstrap, bootstrapTry, bootstrapFinish, fetch, setLoading, setErr,
                  World.put, catchFinally, h0, h404, h1, hok1, h2, hok2, hj, errKept,
                  busyUntilLast, hs, truthy_none]
              | ok data =>
                simp [bootstrap, bootstrapTry, bootstrapFinish, fetch, setLoading, setErr,
                  setTodos, World.put, catchFinally, h0, h404, h1, hok1, h2, hok2, hj,
                  errKept, busyUntilLast, hs, truthy_none]
            · simp [bootstrap, bootstrapTry, bootstrapFinish, fetch, setLoading, setErr,
                World.put, catchFinally, h0, h404, h1, hok1, h2, hok2, errKept,
                busyUntilLast, hs, truthy_none]
        · simp [bootstrap, bootstrapTry, fetch, setLoading, setErr, World.put,
            catchFinally, h0, h404, h1, hok1, errKept, busyUntilLast, hs, truthy_none]
    · by_cases hok0 : r0.ok = true
      · cases hj : r0.json with
        | error m =>
          simp [bootstrap, bootstrapTry, bootstrapFinish, fetch, setLoading, setErr,
            World.put, catchFinally, h0, h404, hok0, hj, errKept, busyUntilLast, hs, truthy_none]
        | ok data =>
          simp [bootstrap, bootstrapTry, bootstrapFinish, fetch, setLoading, setErr,
            setTodos, World.put, catchFinally, h0, h404, hok0, hj, errKept, busyUntilLast,
            hs, truthy_none]
      · simp [bootstrap, bootstrapTry, bootstrapFinish, fetch, setLoading, setErr,
          World.put, catchFinally, h0, h404, hok0, errKept, busyUntilLast, hs, truthy_none]

/-- The same for `addTodo`. -/
theorem addTodo_trace (net : Net) (s : State) (hs : truthy s.err = false) :
    errKept (s :: (addTodo net (World.start s)).history) = true ∧
    busyUntilLast (addTodo net (World.start s)).history = true := by
  by_cases hl : jsTrim s.label = ""
  · simp [addTodo, hl, errKept, busyUntilLast]
  · cases h1 : net [] (createTodoReq (jsTrim s.label)) with
    | rejected m =>
      simp [addTodo, hl, addTodoTry, fetch, setLoading, setErr, World.put, h1, catchFinally,
        errKept, busyUntilLast, hs, truthy_none]
    | resolved r1 =>
      by_cases hok1 : r1.ok = true
      · rcases reloadTodos_cases net
          { state := { s with loading := true, err := none },
            log := [(createTodoReq (jsTrim s.label), FetchOutcome.resolved r1)],
            history := [{ s with loading := true }, { s with loading := true, err := none }] }
          with ⟨m, h2, hr⟩ | ⟨r2, h2, hok2, hr⟩ | ⟨r2, m, h2, hok2, hj, hr⟩ |
            ⟨r2, data, h2, hok2, hj, hr⟩
        · simp [addTodo, hl, addTodoTry, fetch, setLoading, setErr, World.put, h1, hok1,
            hr, catchFinally, errKept, busyUntilLast, hs, truthy_none]
        · simp [addTodo, hl, addTodoTry, fetch, setLoading, setErr, World.put, h1, hok1,
            hr, catchFinally, errKept, busyUntilLast, hs, truthy_none]
        · simp [addTodo, hl, addTodoTry, fetch, setLoading, setErr, World.put, h1, hok1,
            hr, catchFinally, errKept, busyUntilLast, hs, truthy_none]
        · simp [addTodo, hl, addTodoTry, fetch, setLoading, setErr, setTodos, setLabel,
            World.put, h1, hok1, hr, catchFinally, errKept, busyUntilLast, hs, truthy_none]
      · simp [addTodo, hl, addTodoTry, fetch, setLoading, setErr, World.put, h1, hok1,
          catchFinally, errKept, busyUntilLast, hs, truthy_none]

/-- The same for `deleteTodo`. -/
theorem deleteTodo_trace (net : Net) (id : JSValue) (s : State)
    (hs : truthy s.err = false) :
    errKept (s :: (deleteTodo net id (World.start s)).history) = true ∧
    busyUntilLast (deleteTodo net id (World.start s)).history = true := by
  cases h1 : net [] (deleteTodoReq id) with
  | rejected m =>
    simp [deleteTodo, deleteTodoTry, fetch, setLoading, setErr, World.put, h1,
      catchFinally, errKept, busyUntilLast, hs, truthy_none]
  | resolved r1 =>
    by_cases hok1 : r1.ok = true
    · rcases reloadTodos_cases net
        { state := { s with loading := true, err := none },
          log := [(deleteTodoReq id, FetchOutcome.resolved r1)],
          history := [{ s with loading := true }, { s with loading := true, err := none }] }
        with ⟨m, h2, hr⟩ | ⟨r2, h2, hok2, hr⟩ | ⟨r2, m, h2, hok2, hj, hr⟩ |
          ⟨r2, data, h2, hok2, hj, hr⟩
      · simp [deleteTodo, deleteTodoTry, fetch, setLoading, setErr, World.put, h1, hok1,
          hr, catchFinally, errKept, busyUntilLast, hs, truthy_none]
      · simp [deleteTodo, deleteTodoTry, fetch, setLoading, setErr, World.put, h1, hok1,
          hr, catchFinally, errKept, busyUntilLast, hs, truthy_none]
      · simp [deleteTodo, deleteTodoTry, fetch, setLoading, setErr, World.put, h1, hok1,
          hr, catchFinally, errKept, busyUntilLast, hs, truthy_none]
      · simp [deleteTodo, deleteTodoTry, fetch, setLoading, setErr, setTodos, World.put,
          h1, hok1, hr, catchFinally, errKept, busyUntilLast, hs, truthy_none]
    · simp [deleteTodo, deleteTodoTry, fetch, setLoading, setErr, World.put, h1, hok1,
        catchFinally, errKept, busyUntilLast, hs, truthy_none]

/-- The same for the handler of any event. -/
theorem handle_trace (net : Net) (ev : Event) (s : State) (hs : truthy s.err = false) :
    errKept (s :: (handle net ev (World.start s)).history) = true ∧
    busyUntilLast (handle net ev (World.start s)).history = true := by
  cases ev with
  | change value => simp [handle, setLabel, World.put, errKept, busyUntilLast, hs]
  | submit => exact addTodo_trace net s hs
  | delete id => exact deleteTodo_trace net id s hs

/-- C10: whenever err is non-empty the component renders the error view, also while
loading is true, and that view offers no control; while a workflow runs loading is
on, so no control is offered either. Hence workflows start only on mount or from the
normal view, where err is empty, and in every reachable state transition a non-empty
err stays non-empty: err never goes from non-empty to empty, so in particular never
otherwise than through a successful operation. -/
theorem err_kept_on_reachable_transitions :
    (∀ s : State, truthy s.err = true →
      ∃ m, s.err = some m ∧ render s = some (View.error m)) ∧
    (∀ (s : State) (v : View) (ev : Event),
      (truthy s.err = true ∨ s.loading = true) → render s = some v → ¬ v.Offers ev) ∧
    (∀ net : Net, busyUntilLast (bootstrap net (World.start initialState)).history = true) ∧
    (∀ (net : Net) (s : State) (v : View) (ev : Event),
      render s = some v → v.Offers ev →
      busyUntilLast (handle net ev (World.start s)).history = true) ∧
    (∀ a b : State, Transition a b → truthy a.err = true → truthy b.err = true) := by
  refine ⟨render_of_truthy, ?_, fun net => (bootstrap_trace net initialState rfl).2, ?_, ?_⟩
  · intro s v ev h hr ho
    have hi := offers_idle s v ev hr ho
    rcases h with h | h
    · rw [hi.1] at h
      cases h
    · rw [hi.2] at h
      cases h
  · intro net s v ev hr ho
    exact (handle_trace net ev s (offers_idle s v ev hr ho).1).2
  · intro a b hab
    cases hab with
    | mount net a b hmem =>
      exact errKept_steps _ (bootstrap_trace net initialState rfl).1 a b hmem
    | event net s v ev a b _ hr ho hmem =>
      exact errKept_steps _ (handle_trace net ev s (offers_idle s v ev hr ho).1).1 a b hmem

/-- After a mount answered 200 with an empty list the component rests in the idle
state; typing "Buy milk" leads to the idle state with that draft. -/
theorem reachable_idle_with_draft : Reachable (idleState "Buy milk") := by
  have h0 : Reachable (idleState "") := by
    have h := Reachable.mount (scriptedNet [respond 200 (JSValue.arr [])])
    simpa [bootstrap, bootstrapTry, bootstrapFinish, fetch, setLoading, setErr, setTodos,
      World.put, catchFinally, scriptedNet, respond, Response.ok, initialState, idleState,
      toArray, isArray] using h
  have hr : render (idleState "") = some (View.main "" true true []) := by
    simp [render, renderLoaded, renderMain, idleState, show jsTrim "" = "" by decide,
      List.mapM, List.mapM.loop]
  have h1 := Reachable.event (scriptedNet []) (idleState "") _ (Event.change "Buy milk")
    h0 hr trivial
  simpa [handle, setLabel, World.put, idleState] using h1

/-- Witness for C10: on mount with the GET answered 500, and on submitting the draft
"Buy milk" with the POST answered 500, the step from `setErr(message)` to
`setLoading(false)` is a reachable transition that starts with err non-empty, and
err is non-empty after it. -/
theorem err_kept_on_reachable_transitions_witness :
    (Transition (mountFailedState true) (mountFailedState false) ∧
      truthy (mountFailedState true).err = true ∧
      truthy (mountFailedState false).err = true) ∧
    (Transition (addFailedState true) (addFailedState false) ∧
      truthy (addFailedState true).err = true ∧
      truthy (addFailedState false).err = true) :=
  have ht : Transition (mountFailedState true) (mountFailedState false) :=
    Transition.mount (scriptedNet [respond 500 JSValue.null]) _ _ (by
      have hm : statusMessage "Error al cargar tareas" 500
          = "Error al cargar tareas (500)" := by decide
      simp [bootstrap, bootstrapTry, bootstrapFinish, fetch, setLoading, setErr, World.put,
        catchFinally, scriptedNet, respond, Response.ok, steps, initialState, hm,
        mountFailedState])
  have hu : Transition (addFailedState true) (addFailedState false) :=
    Transition.event (scriptedNet [respond 500 JSValue.null]) (idleState "Buy milk")
      (View.main "Buy milk" false true []) Event.submit _ _ reachable_idle_with_draft
      (by simp [render, renderLoaded, renderMain, idleState,
            show jsTrim "Buy milk" = "Buy milk" by decide, List.mapM, List.mapM.loop])
      trivial
      (by
        have hm : statusMessage "No se pudo añadir la tarea" 500
            = "No se pudo añadir la tarea (500)" := by decide
        simp [handle, addTodo, addTodoTry, fetch, setLoading, setErr, World.put,
          catchFinally, scriptedNet, respond, Response.ok, steps, idleState, hm,
          addFailedState, show jsTrim "Buy milk" = "Buy milk" by decide])
  ⟨⟨ht, by decide, err_kept_on_reachable_transitions.2.2.2.2 _ _ ht (by decide)⟩,
   ⟨hu, by decide, err_kept_on_reachable_transitions.2.2.2.2 _ _ hu (by decide)⟩⟩

end TodoListFetch
